import Mathlib

/-!
Verification of the `filter-cloudflare` script (`src/filter-cloudflare.py`).

The script classifies hostnames as fronted by Cloudflare or not: it downloads
and caches the provider's IPv4/IPv6 range lists, parses them into network
blocks, resolves each host to an IPv4 address, tests containment, and fans the
checks out over a process pool, printing (to stdout) only the hosts that are
NOT behind Cloudflare.

This file is a shallow embedding of the script's data model and operations:
Python exceptions become an explicit `PyError` in `Except`, the filesystem and
the network are passed in as explicit values, and the `ipaddress` /
`email.utils` standard-library behavior the script relies on is reproduced
(CIDR parsing with strict host-bit checking, containment via
`ip & netmask == network_address`, RFC-1123 date formatting).
-/

/-- Python exceptions that can arise in the modelled code paths. -/
inductive PyError where
  /-- `socket.gaierror`: address resolution failure. -/
  | gaierror
  /-- `StopIteration`: `next()` on an exhausted iterator. -/
  | stopIteration
  /-- `FileNotFoundError`: `Path.open()` on a missing file. -/
  | fileNotFoundError
  /-- `ValueError`: malformed address/network string, bad pool size. -/
  | valueError
  /-- `AttributeError`: attribute access on an object lacking it. -/
  | attributeError
  deriving DecidableEq, Repr

/-! ## Python string helpers (`str.strip`, blank-line filtering) -/

/-- The ASCII whitespace characters stripped by Python's `str.strip()`. -/
def isPySpace (c : Char) : Bool :=
  c = ' ' || c = '\t' || c = '\n' || c = '\r' || c = '\x0b' || c = '\x0c'

/-- Drop trailing characters satisfying `p`. -/
def dropTrailing (p : Char → Bool) (l : List Char) : List Char :=
  (l.reverse.dropWhile p).reverse

/-- Python `str.strip()` (ASCII whitespace; the script's inputs are ASCII). -/
def pyStrip (s : String) : String :=
  String.mk (dropTrailing isPySpace (s.toList.dropWhile isPySpace))

/-- `filter(None, map(str.strip, lines))`: strip every line, drop the ones that
become empty (empty strings are falsy in Python). -/
def stripNonblank (lines : List String) : List String :=
  (lines.map pyStrip).filter (fun s => s ≠ "")

/-! ## `email.utils.formatdate(timeval, usegmt=True)`

`download_file` stamps the `If-Modified-Since` header with
`formatdate(path.stat().st_mtime, usegmt=True)`, i.e. the RFC-1123 rendering
of the mtime in GMT: `Fri, 19 Jan 2024 22:22:03 GMT`. -/

/-- Civil date (year, month, day) from a count of days since 1970-01-01,
via the standard Gregorian era decomposition. -/
def civilFromDays (z : Nat) : Nat × Nat × Nat :=
  let z' := z + 719468
  let era := z' / 146097
  let doe := z' % 146097
  let yoe := (doe - doe / 1460 + doe / 36524 - doe / 146096) / 365
  let y := yoe + era * 400
  let doy := doe - (365 * yoe + yoe / 4 - yoe / 100)
  let mp := (5 * doy + 2) / 153
  let d := doy - (153 * mp + 2) / 5 + 1
  let m := if mp < 10 then mp + 3 else mp - 9
  (if m ≤ 2 then y + 1 else y, m, d)

/-- Zero-pad ala `%02d`. -/
def pad2 (n : Nat) : String :=
  if n < 10 then "0" ++ toString n else toString n

/-- Zero-pad ala `%04d`. -/
def pad4 (n : Nat) : String :=
  if n < 10 then "000" ++ toString n
  else if n < 100 then "00" ++ toString n
  else if n < 1000 then "0" ++ toString n
  else toString n

/-- Abbreviated weekday names, Monday first (as in `email.utils.formatdate`). -/
def dayNames : List String := ["Mon", "Tue", "Wed", "Thu", "Fri", "Sat", "Sun"]

/-- Abbreviated month names (as in `email.utils.formatdate`). -/
def monthNames : List String :=
  ["Jan", "Feb", "Mar", "Apr", "May", "Jun",
   "Jul", "Aug", "Sep", "Oct", "Nov", "Dec"]

/-- `email.utils.formatdate(timeval, usegmt=True)`:
`'%s, %02d %s %04d %02d:%02d:%02d GMT'` over `time.gmtime(timeval)`.
1970-01-01 was a Thursday, so `tm_wday` (Monday = 0) is `(days + 3) % 7`. -/
def formatdate (timeval : Nat) : String :=
  let days := timeval / 86400
  let secs := timeval % 86400
  let ymd := civilFromDays days
  let wd := (days + 3) % 7
  dayNames.getD wd "" ++ ", " ++ pad2 ymd.2.2 ++ " " ++
    monthNames.getD (ymd.2.1 - 1) "" ++ " " ++ pad4 ymd.1 ++ " " ++
    pad2 (secs / 3600) ++ ":" ++ pad2 (secs % 3600 / 60) ++ ":" ++
    pad2 (secs % 60) ++ " GMT"

example : formatdate 1705702923 = "Fri, 19 Jan 2024 22:22:03 GMT" := rfl
example : formatdate 0 = "Thu, 01 Jan 1970 00:00:00 GMT" := rfl

/-! ## `ipaddress`: address and network parsing

`get_cloudflare_subnets` builds `ipaddress.IPv4Network` / `IPv6Network` values
from the cached range-list lines (strict mode, the constructor default), and
`check_cloudflare` tests `ip in subnet`. The relevant CPython `ipaddress`
semantics are reproduced here: octet/hextet grammar, the one-`::` rule,
netmask/hostmask notation for IPv4, prefix-only notation for IPv6, the strict
host-bits check, and containment as `ip & netmask == network_address` with an
address-family mismatch never matching. -/

/-- Split a character list on every occurrence of `sep` (the semantics of
Python `str.split(sep)` for a one-character separator). -/
def splitSepAux (sep : Char) : List Char → List Char → List (List Char)
  | [], acc => [acc.reverse]
  | x :: xs, acc =>
    if x = sep then acc.reverse :: splitSepAux sep xs []
    else splitSepAux sep xs (x :: acc)

/-- Python `s.split(sep)` for a one-character separator. -/
def pySplit (sep : Char) (s : String) : List String :=
  (splitSepAux sep s.toList []).map String.mk

example : pySplit '.' "1.2.3.4" = ["1", "2", "3", "4"] := rfl
example : pySplit ':' "::" = ["", "", ""] := rfl

/-- Python `s.partition(sep)` for a one-character separator, keeping only the
pieces before and after the first occurrence (`none` when absent). -/
def pyPartition (sep : Char) : List Char → List Char × Option (List Char)
  | [] => ([], none)
  | x :: xs =>
    if x = sep then ([], some xs)
    else
      let r := pyPartition sep xs
      (x :: r.1, r.2)

/-- Decimal value of a digit string (caller has checked the digits). -/
def digitsVal : List Char → Nat → Nat
  | [], acc => acc
  | c :: cs, acc => digitsVal cs (acc * 10 + (c.toNat - '0'.toNat))

/-- `_parse_octet`: 1-3 ASCII digits, no leading zero (unless the octet is
exactly "0"), value at most 255. -/
def parseOctet (s : String) : Except PyError Nat :=
  if s.length = 0 || s.length > 3 then .error .valueError
  else if !(s.toList.all Char.isDigit) then .error .valueError
  else if s.length > 1 && s.toList.headD ' ' = '0' then .error .valueError
  else
    let v := digitsVal s.toList 0
    if v ≤ 255 then .ok v else .error .valueError

/-- `IPv4Address._ip_int_from_string`: exactly four dot-separated octets,
packed big-endian into one integer. -/
def parseIPv4Address (s : String) : Except PyError Nat :=
  match pySplit '.' s with
  | [a, b, c, d] => do
    let oa ← parseOctet a
    let ob ← parseOctet b
    let oc ← parseOctet c
    let od ← parseOctet d
    pure (oa * 2 ^ 24 + ob * 2 ^ 16 + oc * 2 ^ 8 + od)
  | _ => .error .valueError

example : parseIPv4Address "203.0.113.7" = .ok 3405803783 := rfl
example : parseIPv4Address "203.0.113.256" = .error .valueError := rfl
example : parseIPv4Address "203.0.113.07" = .error .valueError := rfl

/-- `_ip_int_from_prefix` for a `w`-bit family:
`ALL_ONES ^ (ALL_ONES >> prefixlen)`. -/
def netmask (w p : Nat) : Nat :=
  (2 ^ w - 1) ^^^ ((2 ^ w - 1) >>> p)

example : netmask 32 24 = 4294967040 := rfl
example : netmask 32 0 = 0 := rfl
example : netmask 32 32 = 4294967295 := rfl

/-- `_prefix_from_ip_int` for IPv4: recover `p` such that `v` is the netmask
of prefix length `p`, if any (CPython validates that `v` consists of `p` one
bits followed by zero bits; searching the 33 candidate masks is equivalent). -/
def prefixFromMask4 (v : Nat) : Option Nat :=
  (List.range 33).find? (fun p => v = netmask 32 p)

/-- `_prefix_from_prefix_string`: ASCII digits only, value within
`0..maxPrefix`. -/
def parsePrefixString (maxPrefix : Nat) (s : String) : Except PyError Nat :=
  if s.length = 0 || !(s.toList.all Char.isDigit) then .error .valueError
  else
    let p := digitsVal s.toList 0
    if p ≤ maxPrefix then .ok p else .error .valueError

/-- `IPv4Network._make_netmask`: an all-digit argument is a prefix length;
otherwise the argument is parsed as a dotted-quad netmask, or failing that a
hostmask (its complement). Returns the prefix length. -/
def makeNetmask4 (s : String) : Except PyError Nat :=
  match parsePrefixString 32 s with
  | .ok p => .ok p
  | .error _ =>
    match parseIPv4Address s with
    | .error _ => .error .valueError
    | .ok v =>
      match prefixFromMask4 v with
      | some p => .ok p
      | none =>
        match prefixFromMask4 (v ^^^ (2 ^ 32 - 1)) with
        | some p => .ok p
        | none => .error .valueError

/-- `_split_addr_prefix`: `address.partition('/')`; a missing separator means
the maximal prefix. Splitting on the first '/' only. -/
def splitAddrPrefix (maxPrefix : Nat) (s : String) : String × String :=
  match pyPartition '/' s.toList with
  | (addr, none) => (String.mk addr, toString maxPrefix)
  | (addr, some rest) => (String.mk addr, String.mk rest)

/-- A parsed `ipaddress.IPv4Network`: packed network address and prefix
length. -/
structure IPv4Network where
  network_address : Nat
  prefixlen : Nat
  deriving DecidableEq, Repr

/-- `ipaddress.IPv4Network(s)` with the default `strict=True`: parse address
and netmask, then fail if the address has host bits set
(`packed & netmask != packed`). -/
def IPv4Network.parse (s : String) : Except PyError IPv4Network := do
  let ap := splitAddrPrefix 32 s
  let packed ← parseIPv4Address ap.1
  let p ← makeNetmask4 ap.2
  if packed &&& netmask 32 p = packed then
    pure ⟨packed, p⟩
  else
    .error .valueError

example : IPv4Network.parse "173.245.48.0/20" = .ok ⟨2918526976, 20⟩ := rfl
example : IPv4Network.parse "173.245.48.1/20" = .error .valueError := rfl
example : IPv4Network.parse "203.0.113.0/255.255.255.0" = .ok ⟨3405803776, 24⟩ := rfl
example : IPv4Network.parse "not-a-cidr" = .error .valueError := rfl
example : IPv4Network.parse "10.0.0.1" = .ok ⟨167772161, 32⟩ := rfl

/-- ASCII hex digit test (`string.hexdigits`). -/
def isHexChar (c : Char) : Bool :=
  c.isDigit || ('a' ≤ c && c ≤ 'f') || ('A' ≤ c && c ≤ 'F')

/-- Value of one ASCII hex digit. -/
def hexVal (c : Char) : Nat :=
  if c.isDigit then c.toNat - '0'.toNat
  else if 'a' ≤ c then c.toNat - 'a'.toNat + 10
  else c.toNat - 'A'.toNat + 10

/-- Value of a hex digit string (caller has checked the digits). -/
def hexDigitsVal : List Char → Nat → Nat
  | [], acc => acc
  | c :: cs, acc => hexDigitsVal cs (acc * 16 + hexVal c)

/-- `_parse_hextet`: 1-4 ASCII hex digits. -/
def parseHextet (s : String) : Except PyError Nat :=
  if s.length = 0 || s.length > 4 then .error .valueError
  else if !(s.toList.all isHexChar) then .error .valueError
  else .ok (hexDigitsVal s.toList 0)

/-- Lowercase hex digits of `n` (`'%x' % n`), fuel-recursive on `n` itself. -/
def natToHexAux : Nat → Nat → List Char → List Char
  | 0, _, acc => acc
  | fuel + 1, n, acc =>
    if n = 0 then acc
    else natToHexAux fuel (n / 16) (Nat.digitChar (n % 16) :: acc)

/-- `'%x' % n` (lowercase, no leading zeros, "0" for zero). -/
def natToHex (n : Nat) : String :=
  if n = 0 then "0" else String.mk (natToHexAux n n [])

example : natToHex 65535 = "ffff" := rfl
example : natToHex 0x2400 = "2400" := rfl

/-- `IPv6Address._ip_int_from_string`: split on ':', fold an IPv4-mapped tail
into two hextets, locate the at-most-one `::`, and pack the hextets around the
zero run. -/
def ipv6IntFromString (s : String) : Except PyError Nat := do
  if s.length = 0 then .error .valueError
  else
  let parts0 := pySplit ':' s
  if parts0.length < 3 then .error .valueError
  else do
  -- An IPv4-mapped suffix such as `::ffff:1.2.3.4` is rewritten into two
  -- 16-bit hextets, exactly as CPython does before the main loop.
  let parts ← (match parts0.getLast? with
    | some last =>
      if last.toList.contains '.' then do
        let v4 ← parseIPv4Address last
        pure (parts0.dropLast ++ [natToHex (v4 >>> 16), natToHex (v4 &&& 65535)])
      else pure parts0
    | none => pure parts0 : Except PyError (List String))
  if parts.length > 9 then .error .valueError
  else if 1 < ((parts.drop 1).dropLast.countP (fun t => t = "")) then
    .error .valueError
  else
    match (parts.drop 1).dropLast.findIdx? (fun t => t = "") with
    | some i0 => do
      let skip := i0 + 1
      let partsHi ← (if parts.headD " " = "" then
          (if skip = 1 then pure 0 else .error .valueError)
        else pure skip : Except PyError Nat)
      let partsLo ← (if parts.getLastD " " = "" then
          (if parts.length - skip - 1 = 1 then pure 0 else .error .valueError)
        else pure (parts.length - skip - 1) : Except PyError Nat)
      if 8 ≤ partsHi + partsLo then .error .valueError
      else do
        let partsSkipped := 8 - (partsHi + partsLo)
        let hiVal ← (parts.take partsHi).foldlM
          (fun acc t => do
            let h ← parseHextet t
            pure (acc <<< 16 ||| h)) 0
        (parts.drop (parts.length - partsLo)).foldlM
          (fun acc t => do
            let h ← parseHextet t
            pure (acc <<< 16 ||| h)) (hiVal <<< (16 * partsSkipped))
    | none =>
      if parts.length ≠ 8 then .error .valueError
      else if parts.headD " " = "" || parts.getLastD " " = "" then
        .error .valueError
      else
        parts.foldlM
          (fun acc t => do
            let h ← parseHextet t
            pure (acc <<< 16 ||| h)) 0

example : ipv6IntFromString "::" = .ok 0 := rfl
example : ipv6IntFromString "::1" = .ok 1 := rfl
example : ipv6IntFromString "2400:cb00::" = .ok (0x2400cb00 <<< 96) := rfl
example : ipv6IntFromString "1:2:3:4:5:6:7:8" =
    .ok 0x00010002000300040005000600070008 := rfl
example : ipv6IntFromString "::ffff:1.2.3.4" = .ok 0xffff01020304 := rfl
example : ipv6IntFromString "1::2::3" = .error .valueError := rfl
example : ipv6IntFromString ":1::2" = .error .valueError := rfl
example : ipv6IntFromString "1:2" = .error .valueError := rfl

/-- A parsed `ipaddress.IPv6Network`: packed network address and prefix
length. -/
structure IPv6Network where
  network_address : Nat
  prefixlen : Nat
  deriving DecidableEq, Repr

/-- `ipaddress.IPv6Network(s)` with the default `strict=True`: split off an
optional `/prefix` (integer prefixes only for IPv6), strip an optional
`%scope` zone id, parse the packed address, and fail if host bits are set. -/
def IPv6Network.parse (s : String) : Except PyError IPv6Network := do
  let ap := splitAddrPrefix 128 s
  let addrStr ← (match pyPartition '%' ap.1.toList with
    | (a, none) => pure (String.mk a)
    | (a, some sc) =>
      if sc.isEmpty || sc.contains '%' then .error .valueError
      else pure (String.mk a) : Except PyError String)
  let packed ← ipv6IntFromString addrStr
  let p ← parsePrefixString 128 ap.2
  if packed &&& netmask 128 p = packed then
    pure ⟨packed, p⟩
  else
    .error .valueError

example : IPv6Network.parse "2400:cb00::/32" = .ok ⟨0x2400cb00 <<< 96, 32⟩ := rfl
example : IPv6Network.parse "2400:cb00::1/32" = .error .valueError := rfl
example : IPv6Network.parse "2400:cb00::/ffff::" = .error .valueError := rfl

/-- A block of the Range Index: either family's network, as appended by
`get_cloudflare_subnets`. -/
inductive IPNetwork where
  | v4 (n : IPv4Network)
  | v6 (n : IPv6Network)
  deriving DecidableEq, Repr

/-- A parsed IP address of either family. -/
inductive IPAddress where
  | v4 (a : Nat)
  | v6 (a : Nat)
  deriving DecidableEq, Repr

/-- `ip in subnet` (`_BaseNetwork.__contains__`): an address of the other
family never matches; otherwise `ip & netmask == network_address`. -/
def netContains (net : IPNetwork) (addr : IPAddress) : Bool :=
  match net, addr with
  | .v4 n, .v4 a => a &&& netmask 32 n.prefixlen = n.network_address
  | .v6 n, .v6 a => a &&& netmask 128 n.prefixlen = n.network_address
  | _, _ => false

example : netContains (.v4 ⟨3405803776, 24⟩) (.v4 3405803783) = true := rfl
example : netContains (.v4 ⟨3405803776, 24⟩) (.v4 3339890697) = false := rfl
example : netContains (.v6 ⟨0, 0⟩) (.v4 3405803783) = false := rfl

/-! ## The script's functions

State the script reads (cache files on disk, DNS answers, HTTP responses) is
passed in explicitly; a cache file is `Option (List String)` (`none` when the
file is absent, otherwise its lines — `Path.open()` on a missing file raises
`FileNotFoundError`). -/

/-- `get_cloudflare_subnets` (lines 122-131): for each of the two cache files,
open it (raising `FileNotFoundError` when absent), strip each line, drop the
blank ones (`filter(None, ...)`), and parse every remaining line as a network
of that file's family, appending the IPv4 file's blocks first. A parse
failure propagates (there is no `try` here). -/
def get_cloudflare_subnets (cache4 cache6 : Option (List String)) :
    Except PyError (List IPNetwork) := do
  match cache4 with
  | none => .error .fileNotFoundError
  | some lines4 => do
    let ns4 ← (stripNonblank lines4).mapM IPv4Network.parse
    match cache6 with
    | none => .error .fileNotFoundError
    | some lines6 => do
      let ns6 ← (stripNonblank lines6).mapM IPv6Network.parse
      pure (ns4.map IPNetwork.v4 ++ ns6.map IPNetwork.v6)

example : get_cloudflare_subnets (some ["173.245.48.0/20", "", "  "])
    (some ["2400:cb00::/32"]) =
    .ok [.v4 ⟨2918526976, 20⟩, .v6 ⟨0x2400cb00 <<< 96, 32⟩] := rfl
example : get_cloudflare_subnets none none = .error .fileNotFoundError := rfl
example : get_cloudflare_subnets (some ["bogus"]) (some []) =
    .error .valueError := rfl

/-- `socket` address families as far as the script is concerned. -/
inductive AddrFamily where
  | af_inet
  | af_inet6
  deriving DecidableEq, Repr, BEq

/-- One entry of a `socket.getaddrinfo` result: the family and the address
field of the sockaddr (`entry[4][0]`). -/
structure AddrInfo where
  family : AddrFamily
  addr : String
  deriving DecidableEq, Repr

/-- The outcome of `socket.getaddrinfo(host, 0)`: a list of candidates, or a
raised `socket.gaierror`. -/
def GaiResult : Type := Except PyError (List AddrInfo)

/-- `get_ip4` (lines 134-140): `next(filter(lambda x: x[0] == AF_INET,
getaddrinfo(host, port)))[4][0]`. A resolution failure propagates; `next` on
an empty filter raises `StopIteration`. -/
def get_ip4 (gai : GaiResult) : Except PyError String :=
  match gai with
  | .error e => .error e
  | .ok infos =>
    match infos.filter (fun x => x.family == AddrFamily.af_inet) with
    | [] => .error .stopIteration
    | x :: _ => .ok x.addr

/-- The `for subnet in ...: if ip in subnet: return True` loop of
`check_cloudflare` (lines 145-155), returning `False` after the last block. -/
def subnetLoop : List IPNetwork → IPAddress → Bool
  | [], _ => false
  | s :: rest, ip => if netContains s ip then true else subnetLoop rest ip

/-- `check_cloudflare` (lines 143-155): resolve the host's IPv4 address
(`ipaddress.IPv4Address(get_ip4(host))`), then scan the memoized subnet list
for a containing block. Any exception propagates. -/
def check_cloudflare (gai : GaiResult) (cache4 cache6 : Option (List String)) :
    Except PyError Bool := do
  let ipStr ← get_ip4 gai
  let ip ← parseIPv4Address ipStr
  let subnets ← get_cloudflare_subnets cache4 cache6
  pure (subnetLoop subnets (.v4 ip))

/-- `check_host` (lines 158-165): `(host, True)` when the check says the host
is not behind Cloudflare, `(host, False)` when it is or when resolution raised
`socket.gaierror`; any other exception propagates uncaught. -/
def check_host (host : String) (gai : GaiResult)
    (cache4 cache6 : Option (List String)) : Except PyError (String × Bool) :=
  match check_cloudflare gai cache4 cache6 with
  | .ok false => .ok (host, true)
  | .ok true => .ok (host, false)
  | .error .gaierror => .ok (host, false)
  | .error e => .error e

example : check_host "a.example" (.ok [⟨.af_inet, "203.0.113.7"⟩])
    (some ["203.0.113.0/24"]) (some []) = .ok ("a.example", false) := rfl
example : check_host "b.example" (.ok [⟨.af_inet, "198.51.100.9"⟩])
    (some ["203.0.113.0/24"]) (some []) = .ok ("b.example", true) := rfl
example : check_host "c.example" (.error .gaierror)
    (some ["203.0.113.0/24"]) (some []) = .ok ("c.example", false) := rfl

/-! ## `download_file` -/

/-- What `urlopen(req)` did: a 2xx response with a body, an
`urllib.error.HTTPError` (which has a `code` attribute; 304 included), or a
plain `urllib.error.URLError` such as a connection or DNS failure (which has
only a `reason`, no `code`). -/
inductive HTTPResponse where
  | success (body : List String)
  | httpError (code : Nat)
  | urlError (reason : String)

/-- A cached range-list file on disk: its `st_mtime` and its lines. -/
structure LocalFile where
  st_mtime : Nat
  content : List String
  deriving DecidableEq, Repr

/-- The `User-Agent` value sent with every range-list request. -/
def uaHeader : String :=
  "Mozilla/5.0 (X11; Linux x86_64; rv:109.0) Gecko/20100101 Firefox/115.0"

/-- The header-construction phase of `download_file` (lines 169-177): a
`User-Agent` always; when `force` is false and the file exists, also an
`If-Modified-Since` carrying `formatdate(path.stat().st_mtime, usegmt=True)`. -/
def request_headers : Bool → Option LocalFile → List (String × String)
  | false, some f =>
    [("User-Agent", uaHeader), ("If-Modified-Since", formatdate f.st_mtime)]
  | _, _ => [("User-Agent", uaHeader)]

/-- The request/handler phase of `download_file` (lines 180-197). On success
the body is written over the local file (mtime becomes `writeTime`) and the
function returns `True`. On `URLError` the handler reads `err.code`: an
`HTTPError` (304 or any other status) has one and the function returns
`False` with the file untouched, but a plain `URLError` (connection or DNS
failure) has no `code` attribute, so the access itself raises
`AttributeError`. `download_file` pairs the headers the request carried with
the outcome: the return value and the resulting state of the local file. -/
def download_file (force : Bool) (localFile : Option LocalFile)
    (resp : HTTPResponse) (writeTime : Nat) :
    List (String × String) × Except PyError (Bool × Option LocalFile) :=
  (request_headers force localFile,
   match resp with
   | .success body => .ok (true, some ⟨writeTime, body⟩)
   | .httpError _code => .ok (false, localFile)
   | .urlError _reason => .error .attributeError)

example : (download_file true none (.success ["203.0.113.0/24"]) 7).2 =
    .ok (true, some ⟨7, ["203.0.113.0/24"]⟩) := rfl
example : (download_file false (some ⟨3, ["x"]⟩) (.httpError 304) 7).2 =
    .ok (false, some ⟨3, ["x"]⟩) := rfl
example : (download_file false (some ⟨3, ["x"]⟩) (.urlError "refused") 7).2 =
    .error .attributeError := rfl

/-! ## `main` (lines 84-119) and process exit (lines 200-201) -/

/-- The parsed command-line arguments, plus the stream behind `args.list`
(its lines and whether it is a terminal). -/
structure Args where
  hosts : List String
  list_lines : List String
  list_isatty : Bool
  proc : Int
  force_download_ips : Bool
  skip_download_ips : Bool

/-- Lines 87-90: `hosts = args.hosts.copy()`, then, unless the list stream is
a tty, `hosts.extend(map(str.strip, args.list))`. Every line is stripped;
nothing filters out the lines that strip to the empty string. -/
def main_hosts (args : Args) : List String :=
  args.hosts ++
    (if args.list_isatty then [] else args.list_lines.map pyStrip)

/-- `multiprocessing.Pool(processes)`: the constructor raises
`ValueError("Number of processes must be at least 1")` when `processes < 1`;
otherwise the pool holds `processes` workers. -/
def Pool_new (processes : Int) : Except PyError Int :=
  if processes < 1 then .error .valueError else .ok processes

/-- One event observed by the `for host, checked in pool.imap_unordered(...)`
loop: a completed `check_host` result, a `KeyboardInterrupt` delivered to the
consumer, or a worker exception re-raised by the iterator. -/
inductive PoolEvent where
  | result (host : String) (checked : Bool)
  | interrupt
  | raised (e : PyError)
  deriving DecidableEq

/-- Lines 110-119: consume pool results, printing `host` to stdout when
`checked` is true; a `KeyboardInterrupt` is caught (diagnostic only) and the
function falls through; any other exception propagates. Either way `main`
has no `return` statement, so its value is Python `None` (modelled `none`).
Returns the stdout lines and `main`'s outcome. -/
def pool_loop : List PoolEvent → List String →
    List String × Except PyError (Option Int)
  | [], out => (out, .ok none)
  | .interrupt :: _, out => (out, .ok none)
  | .raised e :: _, out => (out, .error e)
  | .result host checked :: rest, out =>
    pool_loop rest (out ++ if checked then [host] else [])

/-- `sys.exit(main())` plus interpreter behavior: `sys.exit(None)` exits with
status 0, `sys.exit(n)` with `n` (masked to a byte by the OS), and an
uncaught exception terminates the process with status 1. -/
def sys_exit_code : Except PyError (Option Int) → Nat
  | .ok none => 0
  | .ok (some n) => (n % 256).toNat
  | .error _ => 1

/-- What one run of `main` produced when it returned normally. -/
structure MainOutcome where
  stdout : List String
  ret : Option Int
  workers : Int
  deriving Repr

/-- `main` (lines 84-119): assemble the host list, download the two range
lists unless skipped (an exception there propagates), compute
`proc_num = min(args.proc, len(hosts))`, construct the pool (which validates
`proc_num`), and run the result loop. `resp4`/`resp6` are what `urlopen` did
for the two URLs, `file4`/`file6` the cached files, `events` what the pool
iterator yielded. -/
def download_phase (args : Args) (resp4 resp6 : HTTPResponse)
    (file4 file6 : Option LocalFile) (writeTime : Nat) :
    Except PyError Unit :=
  if args.skip_download_ips then
    pure ()
  else do
    let _ ← (download_file args.force_download_ips file4 resp4 writeTime).2
    let _ ← (download_file args.force_download_ips file6 resp6 writeTime).2
    pure ()

def main_run (args : Args) (resp4 resp6 : HTTPResponse)
    (file4 file6 : Option LocalFile) (writeTime : Nat)
    (events : List PoolEvent) : Except PyError MainOutcome := do
  let hosts := main_hosts args
  let _ ← download_phase args resp4 resp6 file4 file6 writeTime
  let proc_num : Int := min args.proc (hosts.length : Int)
  let workers ← Pool_new proc_num
  match pool_loop events [] with
  | (out, .ok r) => pure ⟨out, r, workers⟩
  | (_, .error e) => .error e

example : main_run ⟨["a.example"], [], true, 4, false, true⟩
    (.success []) (.success []) none none 0
    [.result "a.example" true] = .ok ⟨["a.example"], none, 1⟩ := rfl
example : main_run ⟨[], [], true, 4, false, true⟩
    (.success []) (.success []) none none 0 [] = .error .valueError := rfl

/-! ## Arithmetic facts about masks and containment -/

/-- Bit `i` of the `w`-bit netmask of prefix `p`: set exactly for
`w - p ≤ i < w`. -/
theorem netmask_testBit (w p i : Nat) :
    (netmask w p).testBit i = (decide (w - p ≤ i) && decide (i < w)) := by
  simp only [netmask, Nat.testBit_xor, Nat.testBit_shiftRight,
    Nat.testBit_two_pow_sub_one]
  by_cases h1 : i < w <;> by_cases h2 : p + i < w <;>
    simp [h1, h2] <;> omega

/-- Masking with the prefix netmask clears the low `w - p` bits:
for `a < 2 ^ w`, `a &&& netmask w p = 2 ^ (w - p) * (a / 2 ^ (w - p))`. -/
theorem land_netmask_eq (w p a : Nat) (ha : a < 2 ^ w) :
    a &&& netmask w p = 2 ^ (w - p) * (a / 2 ^ (w - p)) := by
  have h2 : 2 ^ (w - p) * (a / 2 ^ (w - p)) = (a >>> (w - p)) <<< (w - p) := by
    rw [Nat.shiftLeft_eq, Nat.shiftRight_eq_div_pow, Nat.mul_comm]
  rw [h2]
  apply Nat.eq_of_testBit_eq
  intro i
  rw [Nat.testBit_land, netmask_testBit w p i, Nat.testBit_shiftLeft,
    Nat.testBit_shiftRight]
  by_cases hki : w - p ≤ i
  · have hplus : w - p + (i - (w - p)) = i := by omega
    rw [hplus]
    by_cases hiw : i < w
    · simp [hki, hiw]
    · have hbit : a.testBit i = false :=
        Nat.testBit_lt_two_pow
          (lt_of_lt_of_le ha (Nat.pow_le_pow_right (by omega) (by omega)))
      simp [hbit, hki, hiw]
  · simp [hki]

/-- For an aligned base (`k * (b / k) = b`), rounding `a` down to a multiple
of `k` hits `b` exactly when `a` lies in the window `[b, b + k)`. -/
theorem mul_div_eq_iff_range (k b a : Nat) (hk : 0 < k)
    (hb : k * (b / k) = b) : k * (a / k) = b ↔ b ≤ a ∧ a < b + k := by
  constructor
  · intro h
    have h1 := Nat.div_add_mod a k
    have h2 := Nat.mod_lt a hk
    omega
  · intro h
    have hq : a / k = b / k := by
      apply Nat.div_eq_of_lt_le
      · rw [Nat.mul_comm, hb]
        exact h.1
      · rw [Nat.add_mul, Nat.one_mul, Nat.mul_comm, hb]
        exact h.2
    rw [hq, hb]

/-- The core membership fact: for a valid `w`-bit network (prefix in range,
base below `2 ^ w`, host bits clear), the CPython containment test
`a &&& netmask = base` holds exactly when `a` lies in the block's address
window. -/
theorem land_mask_mem_iff (w p base a : Nat)
    (hbase : base < 2 ^ w) (hmask : base &&& netmask w p = base)
    (ha : a < 2 ^ w) :
    a &&& netmask w p = base ↔ base ≤ a ∧ a < base + 2 ^ (w - p) := by
  have hb : 2 ^ (w - p) * (base / 2 ^ (w - p)) = base := by
    rw [← land_netmask_eq w p base hbase, hmask]
  rw [land_netmask_eq w p a ha]
  exact mul_div_eq_iff_range _ _ _ (Nat.two_pow_pos _) hb

/-- The containment loop of `check_cloudflare` agrees with `List.any`. -/
theorem subnetLoop_eq_any (subnets : List IPNetwork) (ip : IPAddress) :
    subnetLoop subnets ip = subnets.any (fun s => netContains s ip) := by
  induction subnets with
  | nil => rfl
  | cons s rest ih =>
    by_cases h : netContains s ip <;> simp [subnetLoop, h, ih]

/-- `List.any` only depends on the multiset of elements. -/
theorem perm_any_eq {l1 l2 : List IPNetwork} (f : IPNetwork → Bool)
    (h : l1.Perm l2) : l1.any f = l2.any f := by
  cases h1 : l1.any f <;> cases h2 : l2.any f
  · rfl
  · exfalso
    rw [List.any_eq_true] at h2
    obtain ⟨x, hx, hfx⟩ := h2
    have hc := List.any_eq_true.mpr ⟨x, h.mem_iff.mpr hx, hfx⟩
    rw [h1] at hc
    cases hc
  · exfalso
    rw [List.any_eq_true] at h1
    obtain ⟨x, hx, hfx⟩ := h1
    have hc := List.any_eq_true.mpr ⟨x, h.mem_iff.mp hx, hfx⟩
    rw [h2] at hc
    cases hc
  · rfl

/-! ## List and string helper lemmas -/

/-- A `mapM` over `Except` fails whenever some element fails. -/
theorem mapM_except_error {α β : Type} (f : α → Except PyError β)
    (l : List α) (h : ∃ x ∈ l, ∃ e, f x = .error e) :
    ∃ e, l.mapM f = .error e := by
  induction l with
  | nil => simp at h
  | cons a t ih =>
    cases hfa : f a with
    | error e =>
      refine ⟨e, ?_⟩
      rw [List.mapM_cons, hfa]
      rfl
    | ok b =>
      obtain ⟨x, hx, e, hfe⟩ := h
      rcases List.mem_cons.mp hx with rfl | hx'
      · rw [hfa] at hfe
        cases hfe
      · obtain ⟨e', he'⟩ := ih ⟨x, hx', e, hfe⟩
        refine ⟨e', ?_⟩
        rw [List.mapM_cons, hfa]
        show List.cons b <$> List.mapM f t = Except.error e'
        rw [he']
        rfl

/-- The head surviving `dropWhile` does not satisfy the predicate. -/
theorem head_dropWhile_false {α : Type} {p : α → Bool} :
    ∀ (l : List α) (c : α), (l.dropWhile p).head? = some c → p c = false := by
  intro l
  induction l with
  | nil => intro c h; cases h
  | cons x xs ih =>
    intro c h
    by_cases hx : p x
    · rw [List.dropWhile_cons_of_pos hx] at h
      exact ih c h
    · rw [List.dropWhile_cons_of_neg hx] at h
      cases h
      exact Bool.not_eq_true _ ▸ (by simpa using hx)

/-- If a prefix (given as `reverse` of a suffix of the reverse) has a head,
it is the head of the original list. -/
theorem head_dropTrailing {p : Char → Bool} (m : List Char) (c : Char)
    (h : (dropTrailing p m).head? = some c) : m.head? = some c := by
  obtain ⟨t, ht⟩ := List.dropWhile_suffix (l := m.reverse) p
  have hm : dropTrailing p m = (m.reverse.dropWhile p).reverse := rfl
  have hsplit : m = (m.reverse.dropWhile p).reverse ++ t.reverse := by
    have := congrArg List.reverse ht
    simpa [List.reverse_append] using this.symm
  rw [hm] at h
  rw [hsplit, List.head?_append_of_ne_nil]
  · exact h
  · intro hnil
    rw [hnil] at h
    cases h

/-- Destructing a successful `Except` bind. -/
theorem except_bind_ok {α β : Type} (u : Except PyError α)
    (f : α → Except PyError β) (b : β) (h : u >>= f = .ok b) :
    ∃ a, u = .ok a ∧ f a = .ok b := by
  cases u with
  | error e => exact Except.noConfusion h
  | ok a => exact ⟨a, rfl, h⟩

/-- The consumer loop only ever prints hosts whose events carried
`checked = true`. -/
theorem pool_loop_no_output (host : String) :
    ∀ (events : List PoolEvent) (out : List String),
      (∀ b, PoolEvent.result host b ∈ events → b = false) →
      host ∉ out → host ∉ (pool_loop events out).1 := by
  intro events
  induction events with
  | nil => intro out _ hout; exact hout
  | cons ev rest ih =>
    intro out h hout
    cases ev with
    | interrupt => exact hout
    | raised e => exact hout
    | result hh b =>
      apply ih
      · intro b' hb'
        exact h b' (List.mem_cons_of_mem _ hb')
      · intro hmem
        rcases List.mem_append.mp hmem with hm | hm
        · exact hout hm
        · cases b with
          | false => simp at hm
          | true =>
            simp at hm
            subst hm
            exact Bool.noConfusion (h true (List.mem_cons_self _ _))

/-- `pool_loop` never produces a non-`None` return value for `main`: the
only successful outcomes are `Except.ok none` (loop finished or
`KeyboardInterrupt` caught). -/
theorem pool_loop_ok_none :
    ∀ (events : List PoolEvent) (out : List String) (v : Option Int),
      (pool_loop events out).2 = .ok v → v = none := by
  intro events
  induction events with
  | nil =>
    intro out v h
    cases h
    rfl
  | cons ev rest ih =>
    intro out v h
    cases ev with
    | interrupt =>
      cases h
      rfl
    | raised e => exact Except.noConfusion h
    | result hh b => exact ih _ v h

/-- The validity invariant every block built by `IPv4Network.parse`
satisfies: prefix within range, packed base within range, host bits clear
(the strict constructor check). -/
def valid4 (n : IPv4Network) : Prop :=
  n.prefixlen ≤ 32 ∧ n.network_address < 2 ^ 32 ∧
    n.network_address &&& netmask 32 n.prefixlen = n.network_address

/-- The validity invariant every block built by `IPv6Network.parse`
satisfies. -/
def valid6 (n : IPv6Network) : Prop :=
  n.prefixlen ≤ 128 ∧ n.network_address < 2 ^ 128 ∧
    n.network_address &&& netmask 128 n.prefixlen = n.network_address

/-! ## Claims -/

/-- C5: for every CIDR block and address, the containment test used by the
classifier (`ip in subnet`, i.e. `netContains`) is true iff the address falls
within the block's prefix window per standard network-address arithmetic,
independently per family; a family mismatch never matches; and the
classifier's scan (`subnetLoop`) returns true iff some block of the index
contains the address, independent of block iteration order. -/
theorem contains_iff_window (n4 : IPv4Network) (n6 : IPv6Network)
    (a4 a6 : Nat) (h4 : valid4 n4) (h6 : valid6 n6)
    (ha4 : a4 < 2 ^ 32) (ha6 : a6 < 2 ^ 128)
    (subnets subnets' : List IPNetwork) (hperm : subnets.Perm subnets')
    (ip : IPAddress) :
    (netContains (.v4 n4) (.v4 a4) = true ↔
      n4.network_address ≤ a4 ∧
        a4 < n4.network_address + 2 ^ (32 - n4.prefixlen)) ∧
    (netContains (.v6 n6) (.v6 a6) = true ↔
      n6.network_address ≤ a6 ∧
        a6 < n6.network_address + 2 ^ (128 - n6.prefixlen)) ∧
    netContains (.v4 n4) (.v6 a6) = false ∧
    netContains (.v6 n6) (.v4 a4) = false ∧
    (subnetLoop subnets ip = true ↔
      ∃ s ∈ subnets, netContains s ip = true) ∧
    subnetLoop subnets ip = subnetLoop subnets' ip := by
  refine ⟨?_, ?_, rfl, rfl, ?_, ?_⟩
  · simp only [netContains, decide_eq_true_eq]
    exact land_mask_mem_iff 32 n4.prefixlen n4.network_address a4
      h4.2.1 h4.2.2 ha4
  · simp only [netContains, decide_eq_true_eq]
    exact land_mask_mem_iff 128 n6.prefixlen n6.network_address a6
      h6.2.1 h6.2.2 ha6
  · rw [subnetLoop_eq_any]
    exact List.any_eq_true
  · rw [subnetLoop_eq_any, subnetLoop_eq_any]
    exact perm_any_eq _ hperm

/-- Witness for `contains_iff_window` at `203.0.113.0/24`, `2400:cb00::/32`,
address `203.0.113.7` (inside the v4 block). -/
theorem contains_iff_window_witness :
    valid4 ⟨3405803776, 24⟩ ∧ valid6 ⟨0x2400cb00 <<< 96, 32⟩ ∧
    (3405803783 : Nat) < 2 ^ 32 ∧ (1 : Nat) < 2 ^ 128 ∧
    (netContains (.v4 ⟨3405803776, 24⟩) (.v4 3405803783) = true ↔
      3405803776 ≤ 3405803783 ∧
        (3405803783 : Nat) < 3405803776 + 2 ^ (32 - 24)) :=
  ⟨⟨by decide, by decide, by decide⟩, ⟨by decide, by decide, by decide⟩,
   by decide, by decide,
   (contains_iff_window ⟨3405803776, 24⟩ ⟨0x2400cb00 <<< 96, 32⟩
      3405803783 1 ⟨by decide, by decide, by decide⟩
      ⟨by decide, by decide, by decide⟩ (by decide) (by decide)
      [.v4 ⟨3405803776, 24⟩] [.v4 ⟨3405803776, 24⟩] (List.Perm.refl _)
      (.v4 3405803783)).1⟩

/-- C6: whenever `main` reaches a normal outcome, the number of pool workers
it used is `min(args.proc, len(hosts))` (line 99:
`proc_num = min(args.proc, len(hosts))`). -/
theorem main_workers_min (args : Args) (resp4 resp6 : HTTPResponse)
    (file4 file6 : Option LocalFile) (writeTime : Nat)
    (events : List PoolEvent) (o : MainOutcome)
    (h : main_run args resp4 resp6 file4 file6 writeTime events = .ok o) :
    o.workers = min args.proc ((main_hosts args).length : Int) := by
  unfold main_run at h
  obtain ⟨u, hu, h⟩ := except_bind_ok _ _ _ h
  obtain ⟨w, hw, h⟩ := except_bind_ok _ _ _ h
  unfold Pool_new at hw
  split at hw
  · exact Except.noConfusion hw
  · cases hw
    rcases hp : pool_loop events [] with ⟨out, r⟩
    rw [hp] at h
    cases r with
    | ok v =>
      cases h
      rfl
    | error e => exact Except.noConfusion h

/-- Witness for `main_workers_min`: two hosts, requested concurrency 4,
pool of 2 workers. -/
theorem main_workers_min_witness :
    main_run ⟨["x.example", "y.example"], [], true, 4, false, true⟩
        (.success []) (.success []) none none 0 [] =
      .ok ⟨[], none, 2⟩ ∧
    (MainOutcome.mk [] none 2).workers =
      min (4 : Int)
        ((main_hosts ⟨["x.example", "y.example"], [], true, 4, false,
          true⟩).length : Int) :=
  ⟨rfl,
   main_workers_min ⟨["x.example", "y.example"], [], true, 4, false, true⟩
     (.success []) (.success []) none none 0 [] ⟨[], none, 2⟩ rfl⟩

/-- C10: with an empty effective host list the computed worker count is
`min(proc, 0)` — zero for any non-negative request — and
`multiprocessing.Pool` rejects it, so the run fails with `ValueError`
instead of completing normally (stated here with downloads skipped, so the
pool construction is the first effectful step). -/
theorem main_empty_hosts_valueError (args : Args) (resp4 resp6 : HTTPResponse)
    (file4 file6 : Option LocalFile) (writeTime : Nat)
    (events : List PoolEvent) (hhosts : main_hosts args = [])
    (hskip : args.skip_download_ips = true) :
    (0 ≤ args.proc → min args.proc ((main_hosts args).length : Int) = 0) ∧
    main_run args resp4 resp6 file4 file6 writeTime events =
      .error .valueError := by
  constructor
  · intro hp
    rw [hhosts]
    simp only [List.length_nil, Nat.cast_zero]
    omega
  · unfold main_run download_phase
    rw [hhosts, hskip]
    simp only [List.length_nil, Nat.cast_zero, if_pos]
    have hlt : min args.proc (0 : Int) < 1 :=
      lt_of_le_of_lt (min_le_right _ _) (by norm_num)
    unfold Pool_new
    rw [if_pos hlt]
    rfl

/-- Witness for `main_empty_hosts_valueError`: no hosts at all. -/
theorem main_empty_hosts_valueError_witness :
    main_hosts ⟨[], [], true, 4, false, true⟩ = [] ∧
    main_run ⟨[], [], true, 4, false, true⟩ (.success []) (.success [])
        none none 0 [] = .error .valueError :=
  ⟨rfl,
   (main_empty_hosts_valueError ⟨[], [], true, 4, false, true⟩
      (.success []) (.success []) none none 0 [] rfl rfl).2⟩

/-- C4 counterexample: a user interrupt while the pool is draining makes
`main` catch `KeyboardInterrupt` and return `None`, so `sys.exit(main())`
exits with status 0 — precisely the status of an uninterrupted run, not a
distinct non-zero status. -/
theorem interrupt_exit_status_zero :
    sys_exit_code (pool_loop [PoolEvent.interrupt] []).2 = 0 ∧
    sys_exit_code (pool_loop [PoolEvent.result "a.example" true] []).2 = 0 :=
  ⟨rfl, rfl⟩

/-- C4 amended: whenever the result loop ends without an uncaught exception —
which covers both normal completion and a caught `KeyboardInterrupt` —
`main` returns `None` and the process exit status is 0; the interrupted run
is distinguishable only by its stderr diagnostic, not by the exit status. -/
theorem main_exit_status_zero (events : List PoolEvent) (out : List String)
    (v : Option Int) (h : (pool_loop events out).2 = .ok v) :
    v = none ∧ sys_exit_code (pool_loop events out).2 = 0 := by
  have hv : v = none := pool_loop_ok_none events out v h
  refine ⟨hv, ?_⟩
  rw [h, hv]
  rfl

/-- Witness for `main_exit_status_zero` on an interrupted run. -/
theorem main_exit_status_zero_witness :
    (pool_loop [PoolEvent.result "a.example" true, PoolEvent.interrupt]
      []).2 = .ok none ∧
    sys_exit_code (pool_loop [PoolEvent.result "a.example" true,
      PoolEvent.interrupt] []).2 = 0 :=
  ⟨rfl,
   (main_exit_status_zero [PoolEvent.result "a.example" true,
      PoolEvent.interrupt] [] none rfl).2⟩

/-- C7: the outbound range-list request carries an `If-Modified-Since`
header equal to the cached file's `st_mtime` rendered by
`formatdate` (HTTP date, GMT) exactly when `force` is false and the file
exists; with `force` set or no cached file, only the `User-Agent` is sent. -/
theorem download_headers_conditional (force : Bool)
    (localFile : Option LocalFile) (resp : HTTPResponse) (writeTime : Nat) :
    (∀ f, localFile = some f → force = false →
      (download_file force localFile resp writeTime).1 =
        [("User-Agent", uaHeader),
         ("If-Modified-Since", formatdate f.st_mtime)]) ∧
    (force = true ∨ localFile = none →
      (download_file force localFile resp writeTime).1 =
        [("User-Agent", uaHeader)]) := by
  constructor
  · rintro f rfl rfl
    rfl
  · rintro (rfl | rfl)
    · cases localFile <;> rfl
    · cases force <;> rfl

/-- Witness for `download_headers_conditional`: mtime 1705702923 renders as
the RFC-1123 date from the source comment; forcing drops the header. -/
theorem download_headers_conditional_witness :
    (download_file false (some ⟨1705702923, []⟩) (.httpError 304) 0).1 =
      [("User-Agent", uaHeader),
       ("If-Modified-Since", "Fri, 19 Jan 2024 22:22:03 GMT")] ∧
    (download_file true (some ⟨1705702923, []⟩) (.httpError 304) 0).1 =
      [("User-Agent", uaHeader)] := by
  constructor
  · have h := (download_headers_conditional false (some ⟨1705702923, []⟩)
      (.httpError 304) 0).1 ⟨1705702923, []⟩ rfl rfl
    rw [h]
    rfl
  · exact (download_headers_conditional true (some ⟨1705702923, []⟩)
      (.httpError 304) 0).2 (Or.inl rfl)

/-- C2 (code bug): an `HTTPError` — 304 or any other status — is handled and
`download_file` returns `False` with the cache untouched, but a plain
`URLError` (connection refused, DNS failure for the range host) has no
`code` attribute, so the handler's `err.code` read raises `AttributeError`,
which propagates out of `download_file` and aborts the run. -/
theorem download_file_urlerror_raises :
    (download_file false (some ⟨1705702923, ["198.51.100.0/24"]⟩)
        (.urlError "urlopen error Connection refused") 0).2 =
      .error .attributeError ∧
    (download_file false (some ⟨1705702923, ["198.51.100.0/24"]⟩)
        (.httpError 500) 0).2 =
      .ok (false, some ⟨1705702923, ["198.51.100.0/24"]⟩) ∧
    (download_file false (some ⟨1705702923, ["198.51.100.0/24"]⟩)
        (.httpError 304) 0).2 =
      .ok (false, some ⟨1705702923, ["198.51.100.0/24"]⟩) :=
  ⟨rfl, rfl, rfl⟩

/-- C1 counterexample: with both cache files ABSENT (skip-download, no prior
cache), building the index does not yield an empty index — `path.open()`
raises `FileNotFoundError`, and since `check_host` catches only
`socket.gaierror`, classification of a perfectly resolvable host errors out
instead of returning `(host, True)`. -/
theorem absent_cache_raises :
    get_cloudflare_subnets none none = .error .fileNotFoundError ∧
    check_host "a.example" (.ok [⟨.af_inet, "203.0.113.7"⟩]) none none =
      .error .fileNotFoundError ∧
    check_host "a.example" (.ok [⟨.af_inet, "203.0.113.7"⟩]) none none ≠
      .ok ("a.example", true) :=
  ⟨rfl, rfl, fun hc => Except.noConfusion hc⟩

/-- C1 amended: when both cache files EXIST but are empty (or contain only
blank lines), the index is empty and every host that resolves to an IPv4
address is classified NotFronted, `(host, True)`; absent cache files instead
raise `FileNotFoundError` (see the counterexample). -/
theorem empty_cache_all_notFronted (l4 l6 : List String)
    (h4 : stripNonblank l4 = []) (h6 : stripNonblank l6 = [])
    (host ipStr : String) (v : Nat)
    (hip : parseIPv4Address ipStr = .ok v) (rest : List AddrInfo) :
    get_cloudflare_subnets (some l4) (some l6) = .ok [] ∧
    check_host host (.ok (⟨.af_inet, ipStr⟩ :: rest)) (some l4) (some l6) =
      .ok (host, true) := by
  have hg : get_cloudflare_subnets (some l4) (some l6) = .ok [] := by
    simp only [get_cloudflare_subnets]
    rw [h4, h6]
    rfl
  refine ⟨hg, ?_⟩
  have hi : get_ip4 (.ok (⟨.af_inet, ipStr⟩ :: rest)) = .ok ipStr := rfl
  have hcc : check_cloudflare (.ok (⟨.af_inet, ipStr⟩ :: rest))
      (some l4) (some l6) = .ok false := by
    unfold check_cloudflare
    rw [hi]
    show (parseIPv4Address ipStr >>= _) = _
    rw [hip]
    show (get_cloudflare_subnets (some l4) (some l6) >>= _) = _
    rw [hg]
    rfl
  unfold check_host
  rw [hcc]

/-- Witness for `empty_cache_all_notFronted`: blank-only cache files, a host
resolving to `203.0.113.7`. -/
theorem empty_cache_all_notFronted_witness :
    check_host "a.example" (.ok [⟨.af_inet, "203.0.113.7"⟩])
        (some ["", "  "]) (some [""]) = .ok ("a.example", true) :=
  (empty_cache_all_notFronted ["", "  "] [""] (by decide) (by decide)
    "a.example" "203.0.113.7" 3405803783 rfl []).2

/-- C3 counterexample: a host whose resolution SUCCEEDS but yields no
IPv4-family candidate does not produce `(host, False)` — `next()` on the
empty filtered iterator raises `StopIteration`, which `check_host` does not
catch, so the exception propagates (and would abort the batch). -/
theorem no_ipv4_candidate_raises :
    check_host "v6only.example" (.ok [⟨.af_inet6, "2001:db8::1"⟩])
        (some []) (some []) = .error .stopIteration ∧
    check_host "v6only.example" (.ok [⟨.af_inet6, "2001:db8::1"⟩])
        (some []) (some []) ≠ .ok ("v6only.example", false) :=
  ⟨rfl, fun hc => Except.noConfusion hc⟩

/-- C3 amended: a host whose resolution fails outright (`socket.gaierror`)
yields `(host, False)` without raising, and a host whose result events all
carry `checked = false` never appears on stdout; but a host that resolves
with no IPv4-family candidate raises `StopIteration` instead (uncaught). -/
theorem resolution_error_not_fatal (host : String)
    (cache4 cache6 : Option (List String)) (infos : List AddrInfo)
    (hno : infos.filter (fun x => x.family == AddrFamily.af_inet) = [])
    (events : List PoolEvent) :
    check_host host (.error .gaierror) cache4 cache6 = .ok (host, false) ∧
    check_host host (.ok infos) cache4 cache6 = .error .stopIteration ∧
    ((∀ b, PoolEvent.result host b ∈ events → b = false) →
      host ∉ (pool_loop events []).1) := by
  refine ⟨rfl, ?_, ?_⟩
  · have hi : get_ip4 (.ok infos) = .error .stopIteration := by
      simp only [get_ip4]
      rw [hno]
    unfold check_host check_cloudflare
    rw [hi]
    rfl
  · intro h
    exact pool_loop_no_output host events [] h (List.not_mem_nil _)

/-- Witness for `resolution_error_not_fatal`: an unresolvable host is skipped
and never printed. -/
theorem resolution_error_not_fatal_witness :
    check_host "c.example" (.error .gaierror) (some []) (some []) =
      .ok ("c.example", false) :=
  (resolution_error_not_fatal "c.example" (some []) (some [])
    [⟨.af_inet6, "2001:db8::1"⟩] rfl
    [.result "c.example" false]).1

/-- A line consisting solely of whitespace strips to the empty string. -/
theorem pyStrip_all_space (s : String) (h : s.toList.all isPySpace = true) :
    pyStrip s = "" := by
  unfold pyStrip dropTrailing
  have h1 : s.toList.dropWhile isPySpace = [] :=
    List.dropWhile_eq_nil_iff.mpr (fun x hx => List.all_eq_true.mp h x hx)
  rw [h1]
  rfl

/-- C8 counterexample: the host sequence is NOT "stripped with empty lines
skipped" — a blank input line strips to `""` and stays in the list handed to
the pool, so an empty-string host is submitted for classification. -/
theorem blank_line_not_skipped :
    main_hosts ⟨[], ["a.example", "", "  "], false, 4, false, false⟩ =
      ["a.example", "", ""] ∧
    "" ∈ main_hosts ⟨[], ["a.example", "", "  "], false, 4, false, false⟩ ∧
    main_hosts ⟨[], ["a.example", "", "  "], false, 4, false, false⟩ ≠
      [] ++ ((["a.example", "", "  "].map pyStrip).filter
        (fun s => s ≠ "")) := by
  refine ⟨by decide, by decide, by decide⟩

/-- C8 amended: the host sequence is the `-H` hosts followed by the list
lines with leading/trailing whitespace stripped, but empty lines are NOT
skipped: every line contributes exactly one (possibly empty) host, and
whitespace-only lines contribute `""`. Stripping itself is genuine: the
result never starts or ends with whitespace. -/
theorem main_hosts_strips_not_skips (args : Args)
    (h : args.list_isatty = false) :
    main_hosts args = args.hosts ++ args.list_lines.map pyStrip ∧
    (main_hosts args).length =
      args.hosts.length + args.list_lines.length ∧
    (∀ s ∈ args.list_lines, pyStrip s ∈ main_hosts args) ∧
    (∀ s, s.toList.all isPySpace = true → pyStrip s = "") ∧
    (∀ s c, (pyStrip s).toList.head? = some c → isPySpace c = false) ∧
    (∀ s c, (pyStrip s).toList.getLast? = some c → isPySpace c = false) := by
  have h1 : main_hosts args = args.hosts ++ args.list_lines.map pyStrip := by
    unfold main_hosts
    rw [h]
    rfl
  refine ⟨h1, ?_, ?_, ?_, ?_, ?_⟩
  · rw [h1]
    simp [List.length_append, List.length_map]
  · intro s hs
    rw [h1]
    exact List.mem_append_right _ (List.mem_map_of_mem _ hs)
  · exact pyStrip_all_space
  · intro s c hc
    have hc' : (dropTrailing isPySpace
        (s.toList.dropWhile isPySpace)).head? = some c := hc
    exact head_dropWhile_false _ _ (head_dropTrailing _ _ hc')
  · intro s c hc
    have hc' : (dropTrailing isPySpace
        (s.toList.dropWhile isPySpace)).getLast? = some c := hc
    unfold dropTrailing at hc'
    rw [List.getLast?_reverse] at hc'
    exact head_dropWhile_false _ _ hc'

/-- Witness for `main_hosts_strips_not_skips`: a padded line and a blank
line produce the stripped host and an empty-string host. -/
theorem main_hosts_strips_not_skips_witness :
    main_hosts ⟨["h1.example"], [" a.example ", ""], false, 2, false,
      false⟩ = ["h1.example", "a.example", ""] :=
  ((main_hosts_strips_not_skips
    ⟨["h1.example"], [" a.example ", ""], false, 2, false, false⟩
    rfl).1).trans (by decide)

/-- C9: building the Range Index reads both cache documents; blank
(whitespace-only) lines are discarded (they strip to `""`, and every
surviving line is non-empty); every remaining line is parsed as a CIDR block
of the file's family (v4 blocks first); and if any non-blank line of either
file is malformed, construction returns an error instead of silently
skipping the line. -/
theorem range_index_construction (l4 l6 : List String)
    (ns4 : List IPv4Network) (ns6 : List IPv6Network) :
    ((stripNonblank l4).mapM IPv4Network.parse = .ok ns4 →
      (stripNonblank l6).mapM IPv6Network.parse = .ok ns6 →
      get_cloudflare_subnets (some l4) (some l6) =
        .ok (ns4.map IPNetwork.v4 ++ ns6.map IPNetwork.v6)) ∧
    ((∃ s ∈ stripNonblank l4, ∃ e, IPv4Network.parse s = .error e) →
      ∃ e, get_cloudflare_subnets (some l4) (some l6) = .error e) ∧
    ((∃ s ∈ stripNonblank l6, ∃ e, IPv6Network.parse s = .error e) →
      ∃ e, get_cloudflare_subnets (some l4) (some l6) = .error e) ∧
    (∀ s, s.toList.all isPySpace = true → pyStrip s = "") ∧
    (∀ t ∈ stripNonblank l4, t ≠ "") := by
  refine ⟨?_, ?_, ?_, pyStrip_all_space, ?_⟩
  · intro hA4 hA6
    simp only [get_cloudflare_subnets]
    rw [hA4, hA6]
    rfl
  · intro hex
    obtain ⟨e, he⟩ := mapM_except_error _ _ hex
    refine ⟨e, ?_⟩
    simp only [get_cloudflare_subnets]
    rw [he]
    rfl
  · intro hex
    cases h4m : (stripNonblank l4).mapM IPv4Network.parse with
    | error e =>
      refine ⟨e, ?_⟩
      simp only [get_cloudflare_subnets]
      rw [h4m]
      rfl
    | ok ns4x =>
      obtain ⟨e, he⟩ := mapM_except_error _ _ hex
      refine ⟨e, ?_⟩
      simp only [get_cloudflare_subnets]
      rw [h4m, he]
      rfl
  · intro t ht
    have hm := List.mem_filter.mp ht
    simpa using hm.2

/-- Witness for `range_index_construction`: a real v4 block, a blank line and
a whitespace line in the v4 file, and a real v6 block. -/
theorem range_index_construction_witness :
    get_cloudflare_subnets (some ["173.245.48.0/20", " ", ""])
        (some ["2400:cb00::/32"]) =
      .ok [.v4 ⟨2918526976, 20⟩, .v6 ⟨0x2400cb00 <<< 96, 32⟩] :=
  ((range_index_construction ["173.245.48.0/20", " ", ""]
      ["2400:cb00::/32"] [⟨2918526976, 20⟩]
      [⟨0x2400cb00 <<< 96, 32⟩]).1 rfl rfl).trans rfl
